import Mathlib

/-!
Shallow embedding of the bookstore cart and order subsystem
(src/app/services/cart_service.py, src/app/services/order_service.py,
src/app/models/book.py, src/app/models/cart.py, src/app/models/cart_item.py,
src/app/models/order.py).

Modelling conventions:
 - Monetary values (Float columns in the source) are modelled as exact
   rationals; the Python builtin round(x, 2) is modelled by round2 below.
 - Database rows are lists of records; string UUID primary keys are
   modelled as natural numbers handed out by a counter field nextId.
 - Each service call is modelled as a function from the committed database
   state to the database state after the call together with the returned
   value or error.  A call that returns an error before reaching
   db.session.commit leaves the committed state unchanged (the session is
   rolled back at request teardown), so error paths return the input state.
 - Timestamp columns (created_at, updated_at) and the generated id columns
   of CartItem, OrderItem and OrderStatusChangeLog are not modelled: no
   claim mentions them and no service logic branches on them.
-/

namespace Bookstore

/-- Python round(x, 2) on money values: round to the nearest multiple of
1/100 (the tie-breaking mode never matters for the claims below, which
only apply it to values that are already multiples of 1/100). -/
def round2 (x : ℚ) : ℚ := ((round (100 * x) : ℤ) : ℚ) / 100

/-- A rational number that is a whole number of cents, i.e. a value that
Python round(x, 2) can actually produce. -/
def IsCents (x : ℚ) : Prop := ∃ k : ℤ, x = (k : ℚ) / 100

/-- Book row (src/app/models/book.py).  The model defines price and
stock_quantity; it defines NO column or attribute named stock or
reserved_stock.  Catalog metadata columns not read by the cart or order
services are elided. -/
structure Book where
  id : Nat
  title : String
  price : ℚ
  stock_quantity : Int
  deriving DecidableEq

/-- Cart status enum column of src/app/models/cart.py. -/
inductive CartStatus where
  | active
  | completed
  | cancelled
  deriving DecidableEq

/-- Cart row (src/app/models/cart.py). -/
structure Cart where
  id : Nat
  user_id : Nat
  status : CartStatus
  total_items : Int
  total_price : ℚ
  deriving DecidableEq

/-- CartItem row (src/app/models/cart_item.py). -/
structure CartItem where
  cart_id : Nat
  book_id : Nat
  quantity : Int
  price_at_addition : ℚ
  subtotal : ℚ
  deriving DecidableEq

/-- OrderStatus enum (src/app/models/order.py). -/
inductive OrderStatus where
  | pending
  | processing
  | paid
  | shipped
  | completed
  | cancelled
  deriving DecidableEq

/-- Value strings of the OrderStatus enum members. -/
def OrderStatus.value : OrderStatus → String
  | .pending => "pending"
  | .processing => "processing"
  | .paid => "paid"
  | .shipped => "shipped"
  | .completed => "completed"
  | .cancelled => "cancelled"

/-- Name lookup on the OrderStatus enum, as done by
OrderStatus[new_status.upper()] in admin_update_order_status. -/
def OrderStatus.ofName : String → Option OrderStatus
  | "PENDING" => some .pending
  | "PROCESSING" => some .processing
  | "PAID" => some .paid
  | "SHIPPED" => some .shipped
  | "COMPLETED" => some .completed
  | "CANCELLED" => some .cancelled
  | _ => none

/-- PaymentMethod enum (src/app/models/order.py). -/
inductive PaymentMethod where
  | mtn_mobile_money
  | airtel_money
  | stripe
  | order_on_delivery
  deriving DecidableEq

/-- Billing or shipping contact payload handed to create_order; the state
key is optional in the payload (billing_info.get with default). -/
structure ContactIn where
  name : String
  email : String
  phone : String
  street : String
  city : String
  state : Option String
  postal_code : String
  country : String
  deriving DecidableEq

/-- Contact columns stored on an Order row. -/
structure Contact where
  name : String
  email : String
  phone : String
  street : String
  city : String
  state : String
  postal_code : String
  country : String
  deriving DecidableEq

/-- Copy a contact payload into order columns, defaulting a missing state
to the empty string as billing_info.get does in create_order. -/
def toContact (c : ContactIn) : Contact :=
  { name := c.name, email := c.email, phone := c.phone, street := c.street,
    city := c.city, state := c.state.getD "", postal_code := c.postal_code,
    country := c.country }

/-- Order row (src/app/models/order.py). -/
structure OrderRec where
  id : Nat
  user_id : Nat
  total_amount : ℚ
  status : OrderStatus
  payment_method : Option PaymentMethod
  payment_transaction_id : Option String
  billing : Contact
  shipping : Contact
  deriving DecidableEq

/-- OrderItem row (src/app/models/order.py). -/
structure OrderItem where
  order_id : Nat
  book_id : Nat
  quantity : Int
  price : ℚ
  deriving DecidableEq

/-- OrderStatusChangeLog row (src/app/models/order.py): the audit entry
appended by admin_update_order_status. -/
structure StatusLog where
  order_id : Nat
  admin_id : Nat
  previous_status : String
  new_status : String
  reason : Option String
  deriving DecidableEq

/-- Python exceptions raised by the order service: ValueError raised on
purpose, and AttributeError raised by reading an attribute the Book model
does not define. -/
inductive PyErr where
  | valueError (msg : String)
  | attributeError (msg : String)
  deriving DecidableEq

/-- Message text of a PyErr, as str(e) interpolates it. -/
def PyErr.text : PyErr → String
  | .valueError m => m
  | .attributeError m => m

/-- The committed database state. -/
structure DB where
  books : List Book
  carts : List Cart
  cartItems : List CartItem
  orders : List OrderRec
  orderItems : List OrderItem
  statusLogs : List StatusLog
  invoicesSent : List Nat
  nextId : Nat
  deriving DecidableEq

/-- Replace the first member of a list satisfying p by its image under f,
modelling mutation of the single ORM object returned by query .first(). -/
def updateFirst (p : α → Bool) (f : α → α) : List α → List α
  | [] => []
  | x :: xs => if p x then f x :: xs else x :: updateFirst p f xs

/-- Delete the first member of a list satisfying p, modelling
db.session.delete of the single ORM object returned by query .first(). -/
def deleteFirst (p : α → Bool) : List α → List α
  | [] => []
  | x :: xs => if p x then xs else x :: deleteFirst p xs

/-- Book.query.get(book_id). -/
def findBook (books : List Book) (bid : Nat) : Option Book :=
  books.find? (fun b => b.id == bid)

/-- Cart.query.filter_by(user_id=..., status=active).first(). -/
def activeCart (carts : List Cart) (uid : Nat) : Option Cart :=
  carts.find? (fun c => c.user_id == uid && c.status == .active)

/-- CartItem.query.filter_by(cart_id=..., book_id=...).first(). -/
def findItem (items : List CartItem) (cid bid : Nat) : Option CartItem :=
  items.find? (fun it => it.cart_id == cid && it.book_id == bid)

/-- CartItem.query.filter_by(cart_id=...).all(). -/
def itemsOfCart (items : List CartItem) (cid : Nat) : List CartItem :=
  items.filter (fun it => it.cart_id == cid)

/-- sum(item.subtotal for item in cart_items). -/
def sumSubtotals (l : List CartItem) : ℚ :=
  (l.map (fun it => it.subtotal)).sum

/-- The quantity of the book already in the cart row that add_to_cart
reads or lazily creates: the quantity of the existing line item of that
cart, zero when there is none.  Mirrors the lookup sequence of
add_to_cart (src/app/services/cart_service.py lines 62-74). -/
def existingQty (db : DB) (uid bid : Nat) : Int :=
  let cid := match activeCart db.carts uid with
    | some c => c.id
    | none => db.nextId
  match findItem db.cartItems cid bid with
  | some it => it.quantity
  | none => 0

/-- The cart_item.book.title relationship read used by remove_cart_item;
the foreign key guarantees the book row exists. -/
def bookTitleOf (db : DB) (bid : Nat) : String :=
  match findBook db.books bid with
  | some b => b.title
  | none => ""

/-- db.session.query(Order).get(order_id). -/
def findOrder (orders : List OrderRec) (oid : Nat) : Option OrderRec :=
  orders.find? (fun o => o.id == oid)

/-- The order.order_items relationship. -/
def orderItemsOf (items : List OrderItem) (oid : Nat) : List OrderItem :=
  items.filter (fun it => it.order_id == oid)

/-- Insufficient-stock error message of CartService (f-string at
src/app/services/cart_service.py lines 78 and 150; quote characters of the
original message elided). -/
def insufficientStockMsg (b : Book) (requested : Int) : String :=
  "Insufficient stock for book " ++ b.title ++ ". Available: " ++
    toString b.stock_quantity ++ ", Requested: " ++ toString requested

/-- The commit tail of CartService.add_to_cart (src/app/services/cart_service.py
lines 97-108): recalculate the cart totals from the cart line items after the
mutation, commit and return the cart.  A cart freshly created in this call
(isNew) is inserted; an existing cart row is updated in place. -/
def commitCart (db : DB) (cart : Cart) (items' : List CartItem) (isNew : Bool) :
    DB × Except String Cart :=
  let inCart := itemsOfCart items' cart.id
  let cart' := { cart with
      total_items := (inCart.length : Int),
      total_price := round2 (sumSubtotals inCart) }
  ({ db with
      carts := if isNew then db.carts ++ [cart']
               else updateFirst (fun c => c.id == cart.id) (fun _ => cart') db.carts,
      cartItems := items',
      nextId := if isNew then db.nextId + 1 else db.nextId },
   .ok cart')

/-- The per-line-item body of CartService.add_to_cart
(src/app/services/cart_service.py lines 68-108): look up the existing line
item for the book, check stock against the cumulative quantity, then either
bump the existing line item (recomputing its subtotal from the CURRENT book
price) or insert a new line item snapshotting price_at_addition, and commit
recalculated totals. -/
def addToCartCore (db : DB) (book : Book) (bid : Nat) (q : Int) (cart : Cart)
    (isNew : Bool) : DB × Except String Cart :=
  match findItem db.cartItems cart.id bid with
  | some it0 =>
    if book.stock_quantity < q + it0.quantity then
      (db, .error (insufficientStockMsg book (q + it0.quantity)))
    else
      commitCart db cart
        (updateFirst (fun it => it.cart_id == cart.id && it.book_id == bid)
          (fun it => { it with
              quantity := it.quantity + q,
              subtotal := round2 (((it.quantity + q : Int) : ℚ) * book.price) })
          db.cartItems)
        isNew
  | none =>
    if book.stock_quantity < q then
      (db, .error (insufficientStockMsg book q))
    else
      commitCart db cart
        (db.cartItems ++ [{ cart_id := cart.id, book_id := bid, quantity := q,
                            price_at_addition := book.price,
                            subtotal := round2 ((q : ℚ) * book.price) }])
        isNew

/-- CartService.add_to_cart (src/app/services/cart_service.py lines
39-113).  Mirrors the source statement by statement; the tuple return
(cart, None) or (None, error) is modelled by Except, paired with the
committed database state after the call. -/
def addToCart (db : DB) (uid bid : Nat) (q : Int) : DB × Except String Cart :=
  if q ≤ 0 then (db, .error "Quantity must be greater than 0")
  else
    match findBook db.books bid with
    | none => (db, .error ("Book with ID " ++ toString bid ++ " not found"))
    | some book =>
      match activeCart db.carts uid with
      | some cart => addToCartCore db book bid q cart false
      | none =>
        addToCartCore db book bid q
          { id := db.nextId, user_id := uid, status := .active,
            total_items := 0, total_price := 0 }
          true

/-- The commit tail shared by update_cart_item and remove_cart_item
(src/app/services/cart_service.py lines 165-177 and 240-252): recalculate
the remaining items of the cart, resetting the totals to zero when none
remain, and commit.  Always succeeds, so it returns the state and the
committed cart. -/
def commitCartReset (db : DB) (cart : Cart) (items' : List CartItem) : DB × Cart :=
  let remaining := itemsOfCart items' cart.id
  let cart' :=
    if remaining.isEmpty then
      { cart with total_items := 0, total_price := 0 }
    else
      { cart with
          total_items := (remaining.length : Int),
          total_price := round2 (sumSubtotals remaining) }
  ({ db with
      carts := updateFirst (fun c => c.id == cart.id) (fun _ => cart') db.carts,
      cartItems := items' },
   cart')

/-- CartService.update_cart_item (src/app/services/cart_service.py lines
115-190). -/
def updateCartItem (db : DB) (uid bid : Nat) (q : Int) : DB × Except String Cart :=
  if q < 0 then (db, .error "Quantity cannot be negative")
  else
    match findBook db.books bid with
    | none => (db, .error ("Book with ID " ++ toString bid ++ " not found"))
    | some book =>
      match activeCart db.carts uid with
      | none => (db, .error "No active cart found")
      | some cart =>
        match findItem db.cartItems cart.id bid with
        | none => (db, .error ("Book " ++ toString bid ++ " not in cart"))
        | some _ =>
          if book.stock_quantity < q then
            (db, .error (insufficientStockMsg book q))
          else
            let items' :=
              if q == 0 then
                deleteFirst (fun it => it.cart_id == cart.id && it.book_id == bid)
                  db.cartItems
              else
                updateFirst (fun it => it.cart_id == cart.id && it.book_id == bid)
                  (fun it => { it with
                      quantity := q,
                      subtotal := round2 ((q : ℚ) * book.price) })
                  db.cartItems
            let r := commitCartReset db cart items'
            (r.1, .ok r.2)

/-- The removed_item_info dictionary built by remove_cart_item. -/
structure RemovedInfo where
  book_id : Nat
  book_title : String
  previous_quantity : Int
  removed_completely : Bool
  remaining_quantity : Option Int
  deriving DecidableEq

/-- CartService.remove_cart_item (src/app/services/cart_service.py lines
192-259). -/
def removeCartItem (db : DB) (uid bid : Nat) : DB × Except String (Cart × RemovedInfo) :=
  match activeCart db.carts uid with
  | none => (db, .error "No active cart found")
  | some cart =>
    match findItem db.cartItems cart.id bid with
    | none => (db, .error ("Book " ++ toString bid ++ " not found in cart"))
    | some item =>
      let info0 : RemovedInfo :=
        { book_id := bid, book_title := bookTitleOf db item.book_id,
          previous_quantity := item.quantity,
          removed_completely := false, remaining_quantity := none }
      let step :=
        if item.quantity ≤ 1 then
          (deleteFirst (fun it => it.cart_id == cart.id && it.book_id == bid) db.cartItems,
           { info0 with removed_completely := true })
        else
          (updateFirst (fun it => it.cart_id == cart.id && it.book_id == bid)
             (fun it => { it with
                 quantity := it.quantity - 1,
                 subtotal := round2 (((it.quantity - 1 : Int) : ℚ) * it.price_at_addition) })
             db.cartItems,
           { info0 with remaining_quantity := some (item.quantity - 1) })
      let r := commitCartReset db cart step.1
      (r.1, .ok (r.2, step.2))

/-- CartService.clear_cart (src/app/services/cart_service.py lines
261-292). -/
def clearCart (db : DB) (uid : Nat) : DB × Except String Cart :=
  match activeCart db.carts uid with
  | none => (db, .error "No active cart found")
  | some cart =>
    let items' := db.cartItems.filter (fun it => !(it.cart_id == cart.id))
    let cart' := { cart with total_items := 0, total_price := 0 }
    ({ db with
        carts := updateFirst (fun c => c.id == cart.id) (fun _ => cart') db.carts,
        cartItems := items' },
     .ok cart')

/-- One entry of the cart_items list handed to OrderService.create_order
by the orders-create route: a dict with keys book_id and quantity. -/
structure OrderReq where
  book_id : Nat
  quantity : Int
  deriving DecidableEq

/-- The AttributeError message produced by reading a Book attribute that
the model does not define (quote characters of the Python message
elided). -/
def noAttrMsg (attr : String) : String :=
  "Book object has no attribute " ++ attr

/-- The statement book.stock_quantity -= quantity of create_order
(src/app/services/order_service.py line 64), applied to the session state
of the books table. -/
def decStock (bid : Nat) (q : Int) (b : Book) : Book :=
  if b.id == bid then { b with stock_quantity := b.stock_quantity - q } else b

/-- The validation and stock-decrement loop of OrderService.create_order
(src/app/services/order_service.py lines 44-66), threading the session
state of the books table: each line looks its book up, errors if the book
is missing or its stock_quantity is below the requested quantity, and
otherwise freezes price times quantity into an order line and decrements
the stock_quantity held in the session. -/
def createOrderLoop :
    List OrderReq → List Book → ℚ → List OrderItem →
      Except PyErr (List Book × ℚ × List OrderItem)
  | [], books, total, acc => .ok (books, total, acc)
  | it :: rest, books, total, acc =>
    match findBook books it.book_id with
    | none =>
      .error (.valueError ("Book with ID " ++ toString it.book_id ++ " not found"))
    | some book =>
      if book.stock_quantity < it.quantity then
        .error (.valueError ("Insufficient stock for book " ++ book.title))
      else
        let oi : OrderItem := { order_id := 0, book_id := book.id,
                                quantity := it.quantity,
                                price := book.price * (it.quantity : ℚ) }
        createOrderLoop rest (books.map (decStock book.id it.quantity))
          (total + oi.price) (acc ++ [oi])

/-- OrderService.create_order (src/app/services/order_service.py lines
13-122).  On a validation error the ValueError is raised before
db.session.add(order), so nothing is committed; on success the order with
its frozen lines, the decremented books and the sent invoice notification
are committed together. -/
def createOrder (db : DB) (uid : Nat) (cart_items : List OrderReq)
    (pm : PaymentMethod) (billing : ContactIn) (shipping : Option ContactIn) :
    DB × Except PyErr OrderRec :=
  match createOrderLoop cart_items db.books 0 [] with
  | .error e => (db, .error e)
  | .ok (books', total, lines) =>
    let oid := db.nextId
    let order : OrderRec :=
      { id := oid, user_id := uid, total_amount := total, status := .pending,
        payment_method := some pm, payment_transaction_id := none,
        billing := toContact billing,
        shipping := toContact (shipping.getD billing) }
    ({ db with
        books := books',
        orders := db.orders ++ [order],
        orderItems := db.orderItems ++ lines.map (fun l => { l with order_id := oid }),
        invoicesSent := db.invoicesSent ++ [oid],
        nextId := db.nextId + 1 },
     .ok order)

/-- The price contribution of one order line: the price of its book (in
the given books table) times the ordered quantity. -/
def lineAmount (books : List Book) (it : OrderReq) : ℚ :=
  match findBook books it.book_id with
  | some b => b.price * (it.quantity : ℚ)
  | none => 0

/-- Sum over the order lines of book price times quantity. -/
def linesTotal (books : List Book) (items : List OrderReq) : ℚ :=
  (items.map (lineAmount books)).sum

/-- The stock-reservation loop of the order-on-delivery branch of
process_payment (src/app/services/order_service.py lines 400-402).  Its
body executes book.reserved_stock -= item.quantity, but the Book model
defines no reserved_stock attribute, so the first iteration raises
AttributeError; the loop therefore only completes on an empty item
list. -/
def reserveStockLoop (items : List OrderItem) (books : List Book) :
    Except PyErr (List Book) :=
  match items with
  | [] => .ok books
  | _ :: _ => .error (.attributeError (noAttrMsg "reserved_stock"))

/-- The stock-finalisation loop of the paid branch of process_payment
(src/app/services/order_service.py lines 413-416).  Its body first
executes book.stock -= item.quantity, but the Book model defines no stock
attribute, so the first iteration raises AttributeError; the loop
therefore only completes on an empty item list. -/
def finalizeStockLoop (items : List OrderItem) (books : List Book) :
    Except PyErr (List Book) :=
  match items with
  | [] => .ok books
  | _ :: _ => .error (.attributeError (noAttrMsg "stock"))

/-- The stock-restoration loop of cancel_order
(src/app/services/order_service.py lines 468-470).  Its body executes
book.stock += item.quantity, but the Book model defines no stock
attribute, so the first iteration raises AttributeError; the loop
therefore only completes on an empty item list. -/
def restoreStockLoop (items : List OrderItem) (books : List Book) :
    Except PyErr (List Book) :=
  match items with
  | [] => .ok books
  | _ :: _ => .error (.attributeError (noAttrMsg "stock"))

/-- OrderService.process_payment (src/app/services/order_service.py lines
365-437).  The try block catches any exception of the per-method
processing, rolls the session back and re-raises it as a ValueError
prefixed with Payment processing failed. -/
def processPayment (db : DB) (oid : Nat) (tx : Option String) :
    DB × Except PyErr OrderRec :=
  match findOrder db.orders oid with
  | none => (db, .error (.valueError "Order not found"))
  | some order =>
    if order.status ≠ .pending then
      (db, .error (.valueError "Order cannot be paid"))
    else
      let items := orderItemsOf db.orderItems oid
      if order.payment_method = some .order_on_delivery then
        match reserveStockLoop items db.books with
        | .error e =>
          (db, .error (.valueError ("Payment processing failed: " ++ e.text)))
        | .ok books' =>
          let order' := { order with status := .processing }
          ({ db with
              books := books',
              orders := updateFirst (fun o => o.id == oid) (fun _ => order') db.orders },
           .ok order')
      else
        match finalizeStockLoop items db.books with
        | .error e =>
          (db, .error (.valueError ("Payment processing failed: " ++ e.text)))
        | .ok books' =>
          let order' := { order with
              status := .paid,
              payment_transaction_id := tx }
          ({ db with
              books := books',
              orders := updateFirst (fun o => o.id == oid) (fun _ => order') db.orders,
              invoicesSent := db.invoicesSent ++ [oid] },
           .ok order')

/-- OrderService.cancel_order (src/app/services/order_service.py lines
439-478).  The stock-restoration loop is not wrapped in any try block, so
the AttributeError it raises propagates out of the service before
db.session.commit is reached. -/
def cancelOrder (db : DB) (oid : Nat) : DB × Except PyErr OrderRec :=
  match findOrder db.orders oid with
  | none => (db, .error (.valueError "Order not found"))
  | some order =>
    if order.status = .pending ∨ order.status = .processing then
      match restoreStockLoop (orderItemsOf db.orderItems oid) db.books with
      | .error e => (db, .error e)
      | .ok books' =>
        let order' := { order with status := .cancelled }
        ({ db with
            books := books',
            orders := updateFirst (fun o => o.id == oid) (fun _ => order') db.orders },
         .ok order')
    else
      (db, .error (.valueError "Order cannot be cancelled"))

/-- Python str.upper, character by character; the status names only
involve ASCII letters, for which Char.toUpper agrees with Python. -/
def pyUpper (s : String) : String :=
  String.mk (s.data.map Char.toUpper)

/-- OrderService.admin_update_order_status (src/app/services/order_service.py
lines 293-363): converts the requested status name through
OrderStatus[new_status.upper()], overwrites the order status without any
transition check, and appends one OrderStatusChangeLog audit entry. -/
def adminUpdateOrderStatus (db : DB) (admin_id oid : Nat) (newStatus : String)
    (reason : Option String) : DB × Except PyErr OrderRec :=
  if newStatus = "" then
    (db, .error (.valueError "Status must be a non-empty string"))
  else
    match OrderStatus.ofName (pyUpper newStatus) with
    | none =>
      (db, .error (.valueError
        "Invalid status. Must be one of: PENDING, PROCESSING, PAID, SHIPPED, COMPLETED, CANCELLED"))
    | some st =>
      match findOrder db.orders oid with
      | none => (db, .error (.valueError "Order not found"))
      | some order =>
        let order' := { order with status := st }
        let log : StatusLog :=
          { order_id := order.id, admin_id := admin_id,
            previous_status := order.status.value, new_status := st.value,
            reason := reason }
        ({ db with
            orders := updateFirst (fun o => o.id == oid) (fun _ => order') db.orders,
            statusLogs := db.statusLogs ++ [log] },
         .ok order')

/-! Concrete sample states used to witness the theorems below on explicit
inputs. -/

/-- An empty database. -/
def dbEmpty : DB :=
  { books := [], carts := [], cartItems := [], orders := [], orderItems := [],
    statusLogs := [], invoicesSent := [], nextId := 0 }

/-- A catalog book used by several witnesses. -/
def bookA : Book :=
  { id := 0, title := "A", price := 15, stock_quantity := 5 }

/-- A second catalog book. -/
def bookB : Book :=
  { id := 1, title := "B", price := 5, stock_quantity := 4 }

/-- A state with two in-stock books and no carts or orders. -/
def dbBooks : DB :=
  { dbEmpty with books := [bookA, bookB], nextId := 2 }

/-- A book that is out of stock. -/
def bookOut : Book :=
  { id := 0, title := "A", price := 15, stock_quantity := 0 }

/-- A state whose only book is out of stock. -/
def dbOut : DB :=
  { dbEmpty with books := [bookOut], nextId := 1 }

/-- A book whose catalog price has been raised to 12 after a cart line
item snapshotted price_at_addition 10. -/
def bookRepriced : Book :=
  { id := 0, title := "A", price := 12, stock_quantity := 10 }

/-- A state holding an active cart with one line item whose
price_at_addition 10 differs from the current book price 12. -/
def dbRepriced : DB :=
  { dbEmpty with
      books := [bookRepriced],
      carts := [{ id := 1, user_id := 0, status := .active, total_items := 1,
                  total_price := 10 }],
      cartItems := [{ cart_id := 1, book_id := 0, quantity := 1,
                      price_at_addition := 10, subtotal := 10 }],
      nextId := 2 }

/-- A state holding an active cart with one line item of quantity 2. -/
def dbTwoQty : DB :=
  { dbEmpty with
      books := [bookA],
      carts := [{ id := 1, user_id := 0, status := .active, total_items := 1,
                  total_price := 30 }],
      cartItems := [{ cart_id := 1, book_id := 0, quantity := 2,
                      price_at_addition := 15, subtotal := 30 }],
      nextId := 2 }

/-- A pending order over one line of two copies of bookA, as recorded
after create_order ran against dbBooks. -/
def pendingOrder : OrderRec :=
  { id := 2, user_id := 0, total_amount := 30, status := .pending,
    payment_method := some .stripe, payment_transaction_id := none,
    billing := { name := "n", email := "e", phone := "p", street := "s",
                 city := "c", state := "", postal_code := "z", country := "u" },
    shipping := { name := "n", email := "e", phone := "p", street := "s",
                  city := "c", state := "", postal_code := "z", country := "u" } }

/-- A state holding the pending order with one order line. -/
def dbPending : DB :=
  { dbEmpty with
      books := [{ bookA with stock_quantity := 3 }],
      orders := [pendingOrder],
      orderItems := [{ order_id := 2, book_id := 0, quantity := 2, price := 30 }],
      nextId := 3 }

/-- The pending order after it has been marked paid by an admin. -/
def dbPaid : DB :=
  { dbPending with
      orders := [{ pendingOrder with status := .paid }] }

/-- The cart returned by adding two copies of bookA to an empty state. -/
def cartW : Cart :=
  { id := 2, user_id := 0, status := .active, total_items := 1, total_price := 30 }

/-- A billing payload for order-creation witnesses. -/
def billingW : ContactIn :=
  { name := "n", email := "e", phone := "p", street := "s", city := "c",
    state := none, postal_code := "z", country := "u" }

/-- The two order lines of the specification scenario: one copy of bookA
and two copies of bookB. -/
def orderReqsW : List OrderReq :=
  [{ book_id := 0, quantity := 1 }, { book_id := 1, quantity := 2 }]

/-! Helper lemmas about rounding, cents values and the list-manipulation
primitives of the embedding. -/

theorem isCents_round2 (x : ℚ) : IsCents (round2 x) :=
  ⟨round (100 * x), rfl⟩

theorem round2_eq_self {x : ℚ} (h : IsCents x) : round2 x = x := by
  obtain ⟨k, rfl⟩ := h
  unfold round2
  have h100 : (100 : ℚ) ≠ 0 := by norm_num
  rw [mul_div_cancel₀ _ h100, round_intCast]

theorem isCents_zero : IsCents 0 :=
  ⟨0, by norm_num⟩

theorem isCents_add {x y : ℚ} (hx : IsCents x) (hy : IsCents y) :
    IsCents (x + y) := by
  obtain ⟨k, rfl⟩ := hx
  obtain ⟨m, rfl⟩ := hy
  exact ⟨k + m, by push_cast; ring⟩

theorem isCents_sumSubtotals {l : List CartItem}
    (h : ∀ it ∈ l, IsCents it.subtotal) : IsCents (sumSubtotals l) := by
  induction l with
  | nil => exact isCents_zero
  | cons x xs ih =>
    have hx := h x (List.mem_cons_self x xs)
    have hxs := ih (fun it hit => h it (List.mem_cons_of_mem x hit))
    simpa [sumSubtotals] using isCents_add hx hxs

theorem mem_updateFirst {p : α → Bool} {f : α → α} {l : List α} {x : α}
    (hx : x ∈ updateFirst p f l) : x ∈ l ∨ ∃ y ∈ l, x = f y := by
  induction l with
  | nil => simp [updateFirst] at hx
  | cons a as ih =>
    by_cases hp : p a
    · simp only [updateFirst, if_pos hp] at hx
      rcases List.mem_cons.mp hx with h | h
      · exact Or.inr ⟨a, List.mem_cons_self a as, h⟩
      · exact Or.inl (List.mem_cons_of_mem a h)
    · simp only [updateFirst, if_neg hp] at hx
      rcases List.mem_cons.mp hx with h | h
      · exact Or.inl (h ▸ List.mem_cons_self a as)
      · rcases ih h with h1 | ⟨y, hy, hxy⟩
        · exact Or.inl (List.mem_cons_of_mem a h1)
        · exact Or.inr ⟨y, List.mem_cons_of_mem a hy, hxy⟩

theorem mem_deleteFirst {p : α → Bool} {l : List α} {x : α}
    (hx : x ∈ deleteFirst p l) : x ∈ l := by
  induction l with
  | nil => simp [deleteFirst] at hx
  | cons a as ih =>
    by_cases hp : p a
    · simp only [deleteFirst, if_pos hp] at hx
      exact List.mem_cons_of_mem a hx
    · simp only [deleteFirst, if_neg hp] at hx
      rcases List.mem_cons.mp hx with h | h
      · exact h ▸ List.mem_cons_self a as
      · exact List.mem_cons_of_mem a (ih h)

theorem find?_updateFirst {p : α → Bool} {f : α → α} {l : List α} {a : α}
    (hfind : l.find? p = some a) (hf : p (f a) = true) :
    (updateFirst p f l).find? p = some (f a) := by
  induction l with
  | nil => simp at hfind
  | cons x xs ih =>
    by_cases hp : p x
    · rw [List.find?_cons_of_pos _ hp] at hfind
      obtain rfl : x = a := Option.some.inj hfind
      simp only [updateFirst, if_pos hp]
      exact List.find?_cons_of_pos _ hf
    · rw [List.find?_cons_of_neg _ hp] at hfind
      simp only [updateFirst, if_neg hp]
      rw [List.find?_cons_of_neg _ hp]
      exact ih hfind

theorem find?_deleteFirst {p : α → Bool} {l : List α} {a : α}
    (hfind : l.find? p = some a) (hone : l.countP p ≤ 1) :
    (deleteFirst p l).find? p = none := by
  induction l with
  | nil => simp at hfind
  | cons x xs ih =>
    by_cases hp : p x
    · simp only [deleteFirst, if_pos hp]
      rw [List.countP_cons, if_pos hp] at hone
      have hzero : xs.countP p = 0 := by omega
      rw [List.find?_eq_none]
      intro b hb hpb
      have := (List.countP_eq_zero).mp hzero b hb
      exact this hpb
    · simp only [deleteFirst, if_neg hp]
      rw [List.find?_cons_of_neg _ hp] at hfind
      rw [List.countP_cons, if_neg hp, Nat.add_zero] at hone
      rw [List.find?_cons_of_neg _ hp]
      exact ih hfind hone

theorem cents_updateFirst {items : List CartItem} {p : CartItem → Bool}
    {f : CartItem → CartItem} (h : ∀ it ∈ items, IsCents it.subtotal)
    (hf : ∀ it, IsCents (f it).subtotal) :
    ∀ it ∈ updateFirst p f items, IsCents it.subtotal := by
  intro it hit
  rcases mem_updateFirst hit with hmem | ⟨y, hy, rfl⟩
  · exact h it hmem
  · exact hf y

theorem cents_deleteFirst {items : List CartItem} {p : CartItem → Bool}
    (h : ∀ it ∈ items, IsCents it.subtotal) :
    ∀ it ∈ deleteFirst p items, IsCents it.subtotal :=
  fun it hit => h it (mem_deleteFirst hit)

theorem cents_append_one {items : List CartItem} {x : CartItem}
    (h : ∀ it ∈ items, IsCents it.subtotal) (hx : IsCents x.subtotal) :
    ∀ it ∈ items ++ [x], IsCents it.subtotal := by
  intro it hit
  rcases List.mem_append.mp hit with hmem | hmem
  · exact h it hmem
  · obtain rfl := List.mem_singleton.mp hmem
    exact hx

theorem cents_filter {items : List CartItem} {p : CartItem → Bool}
    (h : ∀ it ∈ items, IsCents it.subtotal) :
    ∀ it ∈ items.filter p, IsCents it.subtotal :=
  fun it hit => h it (List.mem_of_mem_filter hit)

theorem sum_round2_items {items : List CartItem} {cid : Nat}
    (h : ∀ it ∈ items, IsCents it.subtotal) :
    round2 (sumSubtotals (itemsOfCart items cid)) = sumSubtotals (itemsOfCart items cid) :=
  round2_eq_self (isCents_sumSubtotals (cents_filter h))

theorem itemsOfCart_clear (l : List CartItem) (cid : Nat) :
    itemsOfCart (l.filter (fun it => !(it.cart_id == cid))) cid = [] := by
  induction l with
  | nil => rfl
  | cons x xs ih =>
    by_cases hx : x.cart_id == cid
    · simp only [itemsOfCart, List.filter] at ih ⊢
      simp [hx, ih]
    · simp only [itemsOfCart, List.filter] at ih ⊢
      simp [hx, ih]

theorem commitCart_totals {db : DB} {cart0 cart : Cart} {items2 : List CartItem}
    {isNew : Bool} (h : (commitCart db cart0 items2 isNew).2 = .ok cart)
    (hcents : ∀ it ∈ items2, IsCents it.subtotal) :
    cart.total_items = ((itemsOfCart (commitCart db cart0 items2 isNew).1.cartItems cart.id).length : Int) ∧
    cart.total_price = sumSubtotals (itemsOfCart (commitCart db cart0 items2 isNew).1.cartItems cart.id) := by
  simp only [commitCart] at h ⊢
  injection h with h
  subst h
  exact ⟨rfl, sum_round2_items hcents⟩

theorem commitCartReset_totals {db : DB} {cart0 : Cart} {items2 : List CartItem}
    (hcents : ∀ it ∈ items2, IsCents it.subtotal) :
    (commitCartReset db cart0 items2).2.total_items =
      ((itemsOfCart (commitCartReset db cart0 items2).1.cartItems
        (commitCartReset db cart0 items2).2.id).length : Int) ∧
    (commitCartReset db cart0 items2).2.total_price =
      sumSubtotals (itemsOfCart (commitCartReset db cart0 items2).1.cartItems
        (commitCartReset db cart0 items2).2.id) := by
  simp only [commitCartReset]
  split
  next hEmpty =>
    rw [List.isEmpty_iff] at hEmpty
    simp [hEmpty, sumSubtotals]
  next hEmpty =>
    exact ⟨rfl, sum_round2_items hcents⟩

/-- C1: after every cart mutation that returns a cart, the returned cart
total_items equals the number of line items of that cart in the committed
state and total_price equals the sum of their subtotals.  The hypothesis
records the invariant that every stored subtotal is a whole number of
cents, which every mutation preserves because subtotals are always written
through round2. -/
theorem C1_cart_totals_invariant (db : DB)
    (hc : ∀ it ∈ db.cartItems, IsCents it.subtotal) (uid bid : Nat) (q : Int)
    (cart : Cart) :
    ((addToCart db uid bid q).2 = .ok cart →
      cart.total_items = ((itemsOfCart (addToCart db uid bid q).1.cartItems cart.id).length : Int) ∧
      cart.total_price = sumSubtotals (itemsOfCart (addToCart db uid bid q).1.cartItems cart.id)) ∧
    ((updateCartItem db uid bid q).2 = .ok cart →
      cart.total_items = ((itemsOfCart (updateCartItem db uid bid q).1.cartItems cart.id).length : Int) ∧
      cart.total_price = sumSubtotals (itemsOfCart (updateCartItem db uid bid q).1.cartItems cart.id)) ∧
    (∀ info, (removeCartItem db uid bid).2 = .ok (cart, info) →
      cart.total_items = ((itemsOfCart (removeCartItem db uid bid).1.cartItems cart.id).length : Int) ∧
      cart.total_price = sumSubtotals (itemsOfCart (removeCartItem db uid bid).1.cartItems cart.id)) ∧
    ((clearCart db uid).2 = .ok cart →
      cart.total_items = ((itemsOfCart (clearCart db uid).1.cartItems cart.id).length : Int) ∧
      cart.total_price = sumSubtotals (itemsOfCart (clearCart db uid).1.cartItems cart.id)) := by
  refine ⟨?_, ?_, ?_, ?_⟩
  · simp only [addToCart, addToCartCore]
    repeat' split
    all_goals intro h
    all_goals first
      | exact commitCart_totals h (cents_updateFirst hc (fun it => isCents_round2 _))
      | exact commitCart_totals h (cents_append_one hc (isCents_round2 _))
      | simp at h
  · simp only [updateCartItem]
    repeat' split
    all_goals intro h
    all_goals first
      | (injection h with h; subst h;
         first
           | exact commitCartReset_totals (cents_deleteFirst hc)
           | exact commitCartReset_totals (cents_updateFirst hc (fun it => isCents_round2 _)))
      | simp at h
  · intro info
    simp only [removeCartItem]
    repeat' split
    all_goals intro h
    all_goals first
      | (injection h with h; rw [Prod.mk.injEq] at h; obtain ⟨h1, h2⟩ := h; subst h1;
         first
           | exact commitCartReset_totals (cents_deleteFirst hc)
           | exact commitCartReset_totals (cents_updateFirst hc (fun it => isCents_round2 _)))
      | simp at h
  · simp only [clearCart]
    repeat' split
    all_goals intro h
    all_goals first
      | (injection h with h; subst h;
         refine ⟨?_, ?_⟩ <;> simp [itemsOfCart_clear, sumSubtotals])
      | simp at h

/-- Witness for C1: adding two copies of bookA to the empty cartless
state yields a cart whose totals are one line item and price 30. -/
theorem C1_witness :
    cartW.total_items = ((itemsOfCart (addToCart dbBooks 0 0 2).1.cartItems cartW.id).length : Int) ∧
    cartW.total_price = sumSubtotals (itemsOfCart (addToCart dbBooks 0 0 2).1.cartItems cartW.id) :=
  (C1_cart_totals_invariant dbBooks (fun it hit => absurd hit (List.not_mem_nil it))
    0 0 2 cartW).1 (by
      simp [addToCart, addToCartCore, commitCart, dbBooks, dbEmpty, bookA, bookB, cartW,
            findBook, activeCart, findItem, itemsOfCart, sumSubtotals, round2, List.find?]
      norm_num)

/-- C10: every cart operation that returns an error (invalid quantity,
missing book, no active cart, item not in cart, insufficient stock)
leaves the committed database state, hence the cart row and all its line
items, exactly as they were before the call. -/
theorem C10_cart_errors_leave_state_unchanged (db : DB) (uid bid : Nat) (q : Int) :
    (∀ e, (addToCart db uid bid q).2 = .error e → (addToCart db uid bid q).1 = db) ∧
    (∀ e, (updateCartItem db uid bid q).2 = .error e → (updateCartItem db uid bid q).1 = db) ∧
    (∀ e, (removeCartItem db uid bid).2 = .error e → (removeCartItem db uid bid).1 = db) ∧
    (∀ e, (clearCart db uid).2 = .error e → (clearCart db uid).1 = db) := by
  refine ⟨fun e => ?_, fun e => ?_, fun e => ?_, fun e => ?_⟩
  · simp only [addToCart, addToCartCore, commitCart]
    repeat' split
    all_goals intro h
    all_goals first | rfl | simp at h
  · simp only [updateCartItem]
    repeat' split
    all_goals intro h
    all_goals first | rfl | simp at h
  · simp only [removeCartItem]
    repeat' split
    all_goals intro h
    all_goals first | rfl | simp at h
  · simp only [clearCart]
    repeat' split
    all_goals intro h
    all_goals first | rfl | simp at h

/-- Witness for C10: adding a missing book to a cart in the empty state
errors and leaves the state unchanged. -/
theorem C10_witness : (addToCart dbEmpty 0 0 1).1 = dbEmpty :=
  (C10_cart_errors_leave_state_unchanged dbEmpty 0 0 1).1
    ("Book with ID " ++ toString 0 ++ " not found") rfl

/-- C6: for every order whose status is not PENDING, process_payment
fails with the error Order cannot be paid and the committed state, hence
the order status, is unchanged. -/
theorem C6_process_payment_rejects_non_pending (db : DB) (oid : Nat)
    (tx : Option String) (order : OrderRec)
    (ho : findOrder db.orders oid = some order)
    (hs : order.status ≠ .pending) :
    (processPayment db oid tx).2 = .error (.valueError "Order cannot be paid") ∧
    (processPayment db oid tx).1 = db := by
  simp only [processPayment, ho]
  rw [if_pos hs]
  exact ⟨rfl, rfl⟩

/-- Witness for C6: paying an order already in the PAID status errors
and changes nothing. -/
theorem C6_witness :
    (processPayment dbPaid 2 none).2 = .error (.valueError "Order cannot be paid") ∧
    (processPayment dbPaid 2 none).1 = dbPaid :=
  C6_process_payment_rejects_non_pending dbPaid 2 none
    { pendingOrder with status := .paid } rfl (by decide)

theorem commitCart_cartItems (db : DB) (cart0 : Cart) (items2 : List CartItem)
    (isNew : Bool) : (commitCart db cart0 items2 isNew).1.cartItems = items2 := rfl

theorem findBook_map_decStock (books : List Book) (bid : Nat) (q : Int) (x : Nat) :
    findBook (books.map (decStock bid q)) x =
      (findBook books x).map (decStock bid q) := by
  unfold findBook
  rw [List.find?_map]
  have hp : ((fun b : Book => b.id == x) ∘ decStock bid q) = fun b : Book => b.id == x := by
    funext b
    by_cases h : b.id == bid <;> simp [decStock, h]
  rw [hp]

theorem findBook_decStock_other {books : List Book} {bid : Nat} {q : Int} {x : Nat}
    (hx : x ≠ bid) :
    findBook (books.map (decStock bid q)) x = findBook books x := by
  rw [findBook_map_decStock]
  rcases hb : findBook books x with _ | b
  · rfl
  · have hid : (b.id == x) = true := by
      simpa [findBook] using List.find?_some hb
    have hidx : b.id = x := by simpa using hid
    have hne : (b.id == bid) = false := by
      simp only [beq_eq_false_iff_ne, hidx]
      exact hx
    simp [decStock, hne]

theorem linesTotal_congr {books2 books : List Book} {items : List OrderReq}
    (h : ∀ it ∈ items, findBook books2 it.book_id = findBook books it.book_id) :
    linesTotal books2 items = linesTotal books items := by
  unfold linesTotal
  congr 1
  apply List.map_congr_left
  intro it hit
  unfold lineAmount
  rw [h it hit]

theorem createOrderLoop_ok (items : List OrderReq) (books : List Book) (total : ℚ)
    (acc : List OrderItem)
    (hnodup : (items.map (fun it => it.book_id)).Nodup)
    (hok : ∀ it ∈ items, ∃ b, findBook books it.book_id = some b ∧
      it.quantity ≤ b.stock_quantity) :
    ∃ books2 acc2,
      createOrderLoop items books total acc =
        .ok (books2, total + linesTotal books items, acc ++ acc2) ∧
      (∀ it ∈ items, ∀ b, findBook books it.book_id = some b →
        findBook books2 it.book_id =
          some { b with stock_quantity := b.stock_quantity - it.quantity }) ∧
      (∀ x, x ∉ items.map (fun it => it.book_id) → findBook books2 x = findBook books x) := by
  induction items generalizing books total acc with
  | nil =>
    exact ⟨books, [], by simp [createOrderLoop, linesTotal], by simp, fun x _ => rfl⟩
  | cons it0 rest ih =>
    obtain ⟨b0, hb0, hq0⟩ := hok it0 (List.mem_cons_self it0 rest)
    have hb0id : b0.id = it0.book_id := by
      simpa [findBook] using List.find?_some hb0
    have hnotin : it0.book_id ∉ rest.map (fun it => it.book_id) := by
      have h2 := hnodup
      simp only [List.map_cons, List.nodup_cons] at h2
      exact h2.1
    have hnodup2 : (rest.map (fun it => it.book_id)).Nodup := by
      have h2 := hnodup
      simp only [List.map_cons, List.nodup_cons] at h2
      exact h2.2
    have hother : ∀ it ∈ rest,
        findBook (books.map (decStock b0.id it0.quantity)) it.book_id =
          findBook books it.book_id := by
      intro it hit
      apply findBook_decStock_other
      rw [hb0id]
      intro hcontra
      exact hnotin (hcontra ▸ List.mem_map_of_mem (fun it => it.book_id) hit)
    have hok2 : ∀ it ∈ rest, ∃ b,
        findBook (books.map (decStock b0.id it0.quantity)) it.book_id = some b ∧
        it.quantity ≤ b.stock_quantity := by
      intro it hit
      obtain ⟨b, hb, hq⟩ := hok it (List.mem_cons_of_mem it0 hit)
      exact ⟨b, (hother it hit).trans hb, hq⟩
    obtain ⟨books2, acc2, heq, hdec, huntouched⟩ :=
      ih (books.map (decStock b0.id it0.quantity))
        (total + b0.price * (it0.quantity : ℚ))
        (acc ++ [{ order_id := 0, book_id := b0.id, quantity := it0.quantity,
                   price := b0.price * (it0.quantity : ℚ) }])
        hnodup2 hok2
    refine ⟨books2,
      { order_id := 0, book_id := b0.id, quantity := it0.quantity,
        price := b0.price * (it0.quantity : ℚ) } :: acc2, ?_, ?_, ?_⟩
    · have hstep : createOrderLoop (it0 :: rest) books total acc =
          createOrderLoop rest (books.map (decStock b0.id it0.quantity))
            (total + b0.price * (it0.quantity : ℚ))
            (acc ++ [{ order_id := 0, book_id := b0.id, quantity := it0.quantity,
                       price := b0.price * (it0.quantity : ℚ) }]) := by
        simp only [createOrderLoop, hb0]
        rw [if_neg (by omega)]
      rw [hstep, heq]
      have hLT : linesTotal (books.map (decStock b0.id it0.quantity)) rest =
          linesTotal books rest := linesTotal_congr hother
      have hlineAmount : lineAmount books it0 = b0.price * (it0.quantity : ℚ) := by
        unfold lineAmount
        rw [hb0]
      simp only [Except.ok.injEq, Prod.mk.injEq]
      refine ⟨trivial, ?_, ?_⟩
      · rw [hLT]
        simp only [linesTotal, List.map_cons, List.sum_cons]
        rw [hlineAmount]
        ring
      · simp [List.append_assoc]
    · intro it hit b hb
      rcases List.mem_cons.mp hit with rfl | hit2
      · have hb0b : b = b0 := by
          rw [hb0] at hb
          exact (Option.some.inj hb).symm
        subst hb0b
        rw [huntouched it.book_id hnotin, findBook_map_decStock, hb0]
        simp [decStock, hb0id]
      · exact hdec it hit2 b ((hother it hit2).trans hb)
    · intro x hx
      have hx0 : x ≠ it0.book_id := by
        intro hcontra
        exact hx (by simp [hcontra])
      have hxrest : x ∉ rest.map (fun it => it.book_id) := by
        intro hcontra
        exact hx (by simp [hcontra])
      rw [huntouched x hxrest]
      exact findBook_decStock_other (hb0id ▸ hx0)

theorem createOrderLoop_err (items : List OrderReq) (books : List Book) (total : ℚ)
    (acc : List OrderItem)
    (hnodup : (items.map (fun it => it.book_id)).Nodup)
    (hpresent : ∀ it ∈ items, ∃ b, findBook books it.book_id = some b)
    (hbad : ∃ it ∈ items, ∃ b, findBook books it.book_id = some b ∧
      b.stock_quantity < it.quantity) :
    ∃ e, createOrderLoop items books total acc = .error e := by
  induction items generalizing books total acc with
  | nil =>
    obtain ⟨it, hit, _⟩ := hbad
    exact absurd hit (List.not_mem_nil it)
  | cons it0 rest ih =>
    obtain ⟨b0, hb0⟩ := hpresent it0 (List.mem_cons_self it0 rest)
    by_cases hs : b0.stock_quantity < it0.quantity
    · refine ⟨.valueError ("Insufficient stock for book " ++ b0.title), ?_⟩
      simp only [createOrderLoop, hb0]
      rw [if_pos hs]
    · have hb0id : b0.id = it0.book_id := by
        simpa [findBook] using List.find?_some hb0
      have hnotin : it0.book_id ∉ rest.map (fun it => it.book_id) := by
        have h2 := hnodup
        simp only [List.map_cons, List.nodup_cons] at h2
        exact h2.1
      have hnodup2 : (rest.map (fun it => it.book_id)).Nodup := by
        have h2 := hnodup
        simp only [List.map_cons, List.nodup_cons] at h2
        exact h2.2
      have hother : ∀ it ∈ rest,
          findBook (books.map (decStock b0.id it0.quantity)) it.book_id =
            findBook books it.book_id := by
        intro it hit
        apply findBook_decStock_other
        rw [hb0id]
        intro hcontra
        exact hnotin (hcontra ▸ List.mem_map_of_mem (fun it => it.book_id) hit)
      have hpresent2 : ∀ it ∈ rest, ∃ b,
          findBook (books.map (decStock b0.id it0.quantity)) it.book_id = some b := by
        intro it hit
        obtain ⟨b, hb⟩ := hpresent it (List.mem_cons_of_mem it0 hit)
        exact ⟨b, (hother it hit).trans hb⟩
      have hbad2 : ∃ it ∈ rest, ∃ b,
          findBook (books.map (decStock b0.id it0.quantity)) it.book_id = some b ∧
          b.stock_quantity < it.quantity := by
        obtain ⟨it, hit, b, hb, hlt⟩ := hbad
        rcases List.mem_cons.mp hit with rfl | hit2
        · rw [hb0] at hb
          obtain rfl := Option.some.inj hb
          exact absurd hlt hs
        · exact ⟨it, hit2, b, (hother it hit2).trans hb, hlt⟩
      obtain ⟨e, he⟩ := ih (books.map (decStock b0.id it0.quantity))
        (total + b0.price * (it0.quantity : ℚ))
        (acc ++ [{ order_id := 0, book_id := b0.id, quantity := it0.quantity,
                   price := b0.price * (it0.quantity : ℚ) }])
        hnodup2 hpresent2 hbad2
      refine ⟨e, ?_⟩
      have hstep : createOrderLoop (it0 :: rest) books total acc =
          createOrderLoop rest (books.map (decStock b0.id it0.quantity))
            (total + b0.price * (it0.quantity : ℚ))
            (acc ++ [{ order_id := 0, book_id := b0.id, quantity := it0.quantity,
                       price := b0.price * (it0.quantity : ℚ) }]) := by
        simp only [createOrderLoop, hb0]
        rw [if_neg hs]
      rw [hstep]
      exact he

theorem commitCartReset_cartItems (db : DB) (cart0 : Cart) (items2 : List CartItem) :
    (commitCartReset db cart0 items2).1.cartItems = items2 := rfl

/-- C9: remove_cart_item on a line item of the active cart deletes the
item when its quantity is 1 (reporting complete removal) and, when its
quantity is larger, decrements it by exactly one and recomputes the
subtotal from price_at_addition (reporting partial removal and the
remaining quantity).  The countP hypothesis is the uniqueness invariant
that the cart holds at most one line item per book. -/
theorem C9_remove_cart_item_semantics (db : DB) (uid bid : Nat) (c : Cart)
    (item : CartItem)
    (hc : activeCart db.carts uid = some c)
    (hit : findItem db.cartItems c.id bid = some item)
    (hone : db.cartItems.countP (fun it => it.cart_id == c.id && it.book_id == bid) ≤ 1) :
    ∃ cart info, (removeCartItem db uid bid).2 = .ok (cart, info) ∧
      info.previous_quantity = item.quantity ∧
      (item.quantity = 1 →
        info.removed_completely = true ∧
        findItem (removeCartItem db uid bid).1.cartItems c.id bid = none) ∧
      (1 < item.quantity →
        info.removed_completely = false ∧
        info.remaining_quantity = some (item.quantity - 1) ∧
        findItem (removeCartItem db uid bid).1.cartItems c.id bid =
          some { item with
              quantity := item.quantity - 1,
              subtotal := round2 (((item.quantity - 1 : Int) : ℚ) * item.price_at_addition) }) := by
  have hp : ((fun it : CartItem => it.cart_id == c.id && it.book_id == bid) item) = true := by
    simpa using List.find?_some hit
  by_cases hq : item.quantity ≤ 1
  · refine ⟨(commitCartReset db c (deleteFirst
        (fun it => it.cart_id == c.id && it.book_id == bid) db.cartItems)).2,
      { book_id := bid, book_title := bookTitleOf db item.book_id,
        previous_quantity := item.quantity, removed_completely := true,
        remaining_quantity := none }, ?_, rfl, ?_, ?_⟩
    · simp only [removeCartItem, hc, hit]
      rw [if_pos hq]
    · intro h1
      refine ⟨rfl, ?_⟩
      simp only [removeCartItem, hc, hit]
      rw [if_pos hq]
      simp only [commitCartReset_cartItems, findItem] at hit ⊢
      exact find?_deleteFirst hit hone
    · intro hgt
      omega
  · refine ⟨(commitCartReset db c (updateFirst
        (fun it => it.cart_id == c.id && it.book_id == bid)
        (fun it => { it with
            quantity := it.quantity - 1,
            subtotal := round2 (((it.quantity - 1 : Int) : ℚ) * it.price_at_addition) })
        db.cartItems)).2,
      { book_id := bid, book_title := bookTitleOf db item.book_id,
        previous_quantity := item.quantity, removed_completely := false,
        remaining_quantity := some (item.quantity - 1) }, ?_, rfl, ?_, ?_⟩
    · simp only [removeCartItem, hc, hit]
      rw [if_neg hq]
    · intro h1
      omega
    · intro hgt
      refine ⟨rfl, rfl, ?_⟩
      simp only [removeCartItem, hc, hit]
      rw [if_neg hq]
      simp only [commitCartReset_cartItems, findItem] at hit ⊢
      exact find?_updateFirst hit (by simpa using hp)

/-- Witness for C9: removing one copy from the quantity-2 line item of
dbTwoQty reports a partial removal with remaining quantity 1. -/
theorem C9_witness :
    ∃ cart info, (removeCartItem dbTwoQty 0 0).2 = .ok (cart, info) ∧
      info.previous_quantity = (2 : Int) ∧
      ((2 : Int) = 1 →
        info.removed_completely = true ∧
        findItem (removeCartItem dbTwoQty 0 0).1.cartItems 1 0 = none) ∧
      ((1 : Int) < 2 →
        info.removed_completely = false ∧
        info.remaining_quantity = some (2 - 1) ∧
        findItem (removeCartItem dbTwoQty 0 0).1.cartItems 1 0 =
          some { cart_id := 1, book_id := 0, quantity := 2 - 1,
                 price_at_addition := 15,
                 subtotal := round2 (((2 - 1 : Int) : ℚ) * 15) }) :=
  C9_remove_cart_item_semantics dbTwoQty 0 0
    { id := 1, user_id := 0, status := .active, total_items := 1, total_price := 30 }
    { cart_id := 1, book_id := 0, quantity := 2, price_at_addition := 15, subtotal := 30 }
    rfl rfl (by decide)

/-- C3: cancel_order on a PENDING order with one ordered line does NOT
restore the book stock and does not set the order CANCELLED: the
stock-restoration loop reads book.stock, an attribute the Book model does
not define, so the call raises AttributeError and the committed state is
untouched (Book.stock_quantity keeps the decremented value 3 and the
order stays PENDING). -/
theorem C3_cancel_order_attribute_error :
    (cancelOrder dbPending 2).2 = .error (.attributeError (noAttrMsg "stock")) ∧
    (cancelOrder dbPending 2).1 = dbPending :=
  ⟨rfl, rfl⟩

/-- C7: process_payment on a PENDING order paid by stripe with one
ordered line does NOT transition the order to PAID, record the
transaction id or send an invoice: the stock-finalisation loop reads
book.stock, an attribute the Book model does not define, so the caught
AttributeError is re-raised as ValueError and the committed state is
untouched (the order stays PENDING). -/
theorem C7_process_payment_attribute_error :
    (processPayment dbPending 2 (some "tx1")).2 =
      .error (.valueError ("Payment processing failed: " ++ noAttrMsg "stock")) ∧
    (processPayment dbPending 2 (some "tx1")).1 = dbPending :=
  ⟨rfl, rfl⟩

/-- C8: for every existing order and every string naming a valid order
status, admin_update_order_status overwrites the status with the named
value whatever the current status is, and appends exactly one audit log
entry recording the previous status, the new status, the admin id and the
optional reason. -/
theorem C8_admin_update_order_status (db : DB) (admin oid : Nat) (s : String)
    (reason : Option String) (st : OrderStatus) (order : OrderRec)
    (hne : s ≠ "")
    (hst : OrderStatus.ofName (pyUpper s) = some st)
    (ho : findOrder db.orders oid = some order) :
    (adminUpdateOrderStatus db admin oid s reason).2 = .ok { order with status := st } ∧
    findOrder (adminUpdateOrderStatus db admin oid s reason).1.orders oid =
      some { order with status := st } ∧
    (adminUpdateOrderStatus db admin oid s reason).1.statusLogs =
      db.statusLogs ++ [{ order_id := order.id, admin_id := admin,
                          previous_status := order.status.value,
                          new_status := st.value, reason := reason }] := by
  simp only [adminUpdateOrderStatus, hst, ho]
  rw [if_neg hne]
  refine ⟨rfl, ?_, rfl⟩
  have hp : ((fun o : OrderRec => o.id == oid) order) = true := by
    simpa using List.find?_some ho
  simpa [findOrder] using
    find?_updateFirst (p := fun o : OrderRec => o.id == oid)
      (f := fun _ => { order with status := st }) ho (by simpa using hp)

/-- Witness for C8: renaming the PAID order of dbPaid to SHIPPED via the
admin path succeeds, overwrites the status and appends one audit entry. -/
theorem C8_witness :
    (adminUpdateOrderStatus dbPaid 7 2 "shipped" (some "late")).2 =
      .ok { { pendingOrder with status := .paid } with status := .shipped } ∧
    findOrder (adminUpdateOrderStatus dbPaid 7 2 "shipped" (some "late")).1.orders 2 =
      some { { pendingOrder with status := .paid } with status := .shipped } ∧
    (adminUpdateOrderStatus dbPaid 7 2 "shipped" (some "late")).1.statusLogs =
      dbPaid.statusLogs ++
        [{ order_id := ({ pendingOrder with status := .paid } : OrderRec).id, admin_id := 7,
           previous_status := ({ pendingOrder with status := .paid } : OrderRec).status.value,
           new_status := OrderStatus.shipped.value, reason := some "late" }] :=
  C8_admin_update_order_status dbPaid 7 2 "shipped" (some "late") .shipped
    { pendingOrder with status := .paid } (by decide) (by decide) rfl

/-- C2: for an order request over distinct in-catalog books, create_order
fails (raising ValueError, committing nothing) whenever some line quantity
exceeds the stock of its book, and otherwise creates one PENDING order
whose total_amount is the sum of book price times quantity over the lines
while decrementing each book stock_quantity by exactly the ordered
quantity. -/
theorem C2_create_order_stock (db : DB) (uid : Nat) (items : List OrderReq)
    (pm : PaymentMethod) (billing : ContactIn) (shipping : Option ContactIn)
    (hnodup : (items.map (fun it => it.book_id)).Nodup)
    (hpresent : ∀ it ∈ items, ∃ b, findBook db.books it.book_id = some b) :
    ((∃ it ∈ items, ∃ b, findBook db.books it.book_id = some b ∧
        b.stock_quantity < it.quantity) →
      (∃ e, (createOrder db uid items pm billing shipping).2 = .error e) ∧
      (createOrder db uid items pm billing shipping).1 = db) ∧
    ((∀ it ∈ items, ∀ b, findBook db.books it.book_id = some b →
        it.quantity ≤ b.stock_quantity) →
      ∃ order, (createOrder db uid items pm billing shipping).2 = .ok order ∧
        order.total_amount = linesTotal db.books items ∧
        order.status = .pending ∧
        (createOrder db uid items pm billing shipping).1.orders = db.orders ++ [order] ∧
        (∀ it ∈ items, ∀ b, findBook db.books it.book_id = some b →
          findBook (createOrder db uid items pm billing shipping).1.books it.book_id =
            some { b with stock_quantity := b.stock_quantity - it.quantity })) := by
  constructor
  · intro hbad
    obtain ⟨e, he⟩ := createOrderLoop_err items db.books 0 [] hnodup hpresent hbad
    simp only [createOrder, he]
    exact ⟨⟨e, rfl⟩, trivial⟩
  · intro hbound
    have hok : ∀ it ∈ items, ∃ b, findBook db.books it.book_id = some b ∧
        it.quantity ≤ b.stock_quantity := by
      intro it hit
      obtain ⟨b, hb⟩ := hpresent it hit
      exact ⟨b, hb, hbound it hit b hb⟩
    obtain ⟨books2, acc2, heq, hdec, _⟩ :=
      createOrderLoop_ok items db.books 0 [] hnodup hok
    simp only [createOrder, heq]
    refine ⟨_, rfl, ?_, rfl, rfl, ?_⟩
    · simp
    · intro it hit b hb
      exact hdec it hit b hb

/-- Witness for C2: the specification scenario, ordering one copy of
bookA (price 15) and two copies of bookB (price 5) from dbBooks. -/
theorem C2_witness :
    ∃ order, (createOrder dbBooks 0 orderReqsW .stripe billingW none).2 = .ok order ∧
      order.total_amount = linesTotal dbBooks.books orderReqsW ∧
      order.status = .pending ∧
      (createOrder dbBooks 0 orderReqsW .stripe billingW none).1.orders =
        dbBooks.orders ++ [order] ∧
      (∀ it ∈ orderReqsW, ∀ b, findBook dbBooks.books it.book_id = some b →
        findBook (createOrder dbBooks 0 orderReqsW .stripe billingW none).1.books it.book_id =
          some { b with stock_quantity := b.stock_quantity - it.quantity }) :=
  (C2_create_order_stock dbBooks 0 orderReqsW .stripe billingW none (by decide)
    (by
      intro it hit
      rcases List.mem_cons.mp hit with rfl | hit2
      · exact ⟨bookA, rfl⟩
      · rcases List.mem_cons.mp hit2 with rfl | hit3
        · exact ⟨bookB, rfl⟩
        · exact absurd hit3 (List.not_mem_nil it))).2
    (by
      intro it hit b hb
      rcases List.mem_cons.mp hit with rfl | hit2
      · rw [show findBook dbBooks.books ({ book_id := 0, quantity := 1 } : OrderReq).book_id =
            some bookA from rfl] at hb
        obtain rfl := Option.some.inj hb
        decide
      · rcases List.mem_cons.mp hit2 with rfl | hit3
        · rw [show findBook dbBooks.books ({ book_id := 1, quantity := 2 } : OrderReq).book_id =
              some bookB from rfl] at hb
          obtain rfl := Option.some.inj hb
          decide
        · exact absurd hit3 (List.not_mem_nil it))

/-- C4: for a positive requested quantity of an existing book, add_to_cart
is rejected with the insufficient-stock error exactly when the quantity
already in the active cart for that book plus the requested quantity
exceeds the book stock_quantity, and on that rejection the committed state
is unchanged. -/
theorem C4_add_insufficient_stock_iff (db : DB) (uid bid : Nat) (q : Int) (book : Book)
    (hb : findBook db.books bid = some book) (hq : 0 < q) :
    ((addToCart db uid bid q).2 =
        .error (insufficientStockMsg book (q + existingQty db uid bid)) ↔
      book.stock_quantity < q + existingQty db uid bid) ∧
    (book.stock_quantity < q + existingQty db uid bid →
      (addToCart db uid bid q).1 = db) := by
  have hq2 : ¬ q ≤ 0 := by omega
  simp only [addToCart, addToCartCore, existingQty]
  rw [if_neg hq2]
  simp only [hb]
  rcases hf : activeCart db.carts uid with _ | c
  · simp only [hf]
    rcases hi : findItem db.cartItems db.nextId bid with _ | it
    · simp only [hi, add_zero]
      by_cases hs : book.stock_quantity < q
      · rw [if_pos hs]
        exact ⟨iff_of_true rfl hs, fun h => rfl⟩
      · rw [if_neg hs]
        exact ⟨iff_of_false (by simp [commitCart]) hs, fun h => absurd h hs⟩
    · simp only [hi]
      by_cases hs : book.stock_quantity < q + it.quantity
      · rw [if_pos hs]
        exact ⟨iff_of_true rfl hs, fun h => rfl⟩
      · rw [if_neg hs]
        exact ⟨iff_of_false (by simp [commitCart]) hs, fun h => absurd h hs⟩
  · simp only [hf]
    rcases hi : findItem db.cartItems c.id bid with _ | it
    · simp only [hi, add_zero]
      by_cases hs : book.stock_quantity < q
      · rw [if_pos hs]
        exact ⟨iff_of_true rfl hs, fun h => rfl⟩
      · rw [if_neg hs]
        exact ⟨iff_of_false (by simp [commitCart]) hs, fun h => absurd h hs⟩
    · simp only [hi]
      by_cases hs : book.stock_quantity < q + it.quantity
      · rw [if_pos hs]
        exact ⟨iff_of_true rfl hs, fun h => rfl⟩
      · rw [if_neg hs]
        exact ⟨iff_of_false (by simp [commitCart]) hs, fun h => absurd h hs⟩

/-- Witness for C4: requesting one copy of the out-of-stock book of dbOut
is rejected with the insufficient-stock error and changes nothing. -/
theorem C4_witness :
    ((addToCart dbOut 0 0 1).2 =
        .error (insufficientStockMsg bookOut (1 + existingQty dbOut 0 0)) ↔
      bookOut.stock_quantity < 1 + existingQty dbOut 0 0) ∧
    (bookOut.stock_quantity < 1 + existingQty dbOut 0 0 →
      (addToCart dbOut 0 0 1).1 = dbOut) :=
  C4_add_insufficient_stock_iff dbOut 0 0 1 bookOut rfl (by norm_num)

/-- C5 counterexample: in dbRepriced the cart line item snapshotted
price_at_addition 10 but the book price is now 12; adding one more copy
recomputes the subtotal as round2(2 x 12) = 24 from the CURRENT book
price, so the stored subtotal 24 differs from quantity times
price_at_addition = 2 x 10 = 20, refuting the claim as stated. -/
theorem C5_counterexample :
    findItem (addToCart dbRepriced 0 0 1).1.cartItems 1 0 =
      some { cart_id := 1, book_id := 0, quantity := 2,
             price_at_addition := 10, subtotal := 24 } ∧
    ¬ ((24 : ℚ) = 2 * 10) := by
  constructor
  · simp [addToCart, addToCartCore, commitCart, dbRepriced, dbEmpty, bookRepriced,
          findBook, activeCart, findItem, updateFirst, itemsOfCart, sumSubtotals,
          round2, List.find?]
    norm_num
  · norm_num

/-- C5 as amended: the subtotal recomputed for an existing line item by
add_to_cart and update_cart_item is quantity times the CURRENT book price
(price_at_addition is kept but not used), while remove_cart_item
recomputes quantity times price_at_addition; the three coincide only when
the book price has not changed since the item was added. -/
theorem C5_subtotal_recomputation (db : DB) (uid bid : Nat) (q : Int) (book : Book)
    (c : Cart) (item : CartItem)
    (hb : findBook db.books bid = some book)
    (hc : activeCart db.carts uid = some c)
    (hit : findItem db.cartItems c.id bid = some item) :
    (¬ q ≤ 0 → ¬ book.stock_quantity < q + item.quantity →
      findItem (addToCart db uid bid q).1.cartItems c.id bid =
        some { item with
            quantity := item.quantity + q,
            subtotal := round2 (((item.quantity + q : Int) : ℚ) * book.price) }) ∧
    (¬ q < 0 → ¬ q = 0 → ¬ book.stock_quantity < q →
      findItem (updateCartItem db uid bid q).1.cartItems c.id bid =
        some { item with quantity := q, subtotal := round2 ((q : ℚ) * book.price) }) ∧
    (1 < item.quantity →
      findItem (removeCartItem db uid bid).1.cartItems c.id bid =
        some { item with
            quantity := item.quantity - 1,
            subtotal := round2 (((item.quantity - 1 : Int) : ℚ) * item.price_at_addition) }) := by
  have hp : ((fun it : CartItem => it.cart_id == c.id && it.book_id == bid) item) = true := by
    simpa using List.find?_some hit
  refine ⟨?_, ?_, ?_⟩
  · intro hq hs
    simp only [addToCart, addToCartCore]
    rw [if_neg hq]
    simp only [hb, hc, hit]
    rw [if_neg hs]
    simp only [commitCart_cartItems, findItem] at hit ⊢
    exact find?_updateFirst hit (by simpa using hp)
  · intro hq hq0 hs
    simp only [updateCartItem]
    rw [if_neg hq]
    simp only [hb, hc, hit]
    rw [if_neg hs]
    rw [if_neg (show ¬ ((q == 0) = true) from by simpa using hq0)]
    simp only [commitCartReset_cartItems, findItem] at hit ⊢
    exact find?_updateFirst hit (by simpa using hp)
  · intro hgt
    simp only [removeCartItem, hc, hit]
    rw [if_neg (show ¬ item.quantity ≤ 1 from by omega)]
    simp only [commitCartReset_cartItems, findItem] at hit ⊢
    exact find?_updateFirst hit (by simpa using hp)

/-- Witness for C5 as amended: adding one more copy of the repriced book
stores subtotal round2(2 x 12) computed from the current price 12. -/
theorem C5_witness :
    findItem (addToCart dbRepriced 0 0 1).1.cartItems 1 0 =
      some { cart_id := 1, book_id := 0, quantity := 1 + 1,
             price_at_addition := 10,
             subtotal := round2 (((1 + 1 : Int) : ℚ) * 12) } := by
  have h := C5_subtotal_recomputation dbRepriced 0 0 1 bookRepriced
    { id := 1, user_id := 0, status := .active, total_items := 1, total_price := 10 }
    { cart_id := 1, book_id := 0, quantity := 1, price_at_addition := 10, subtotal := 10 }
    rfl rfl rfl
  exact h.1 (by decide) (by decide)

end Bookstore
